import Mathlib

/-
  Verification of the notebook batch-testing scripts of the repository
  (test_notebooks.py, which contains two concatenated NotebookTester
  variants, and simple_test.py) against their natural-language
  specification.  The Python code is embedded shallowly: JSON documents
  become an inductive `Json` type, subprocess executions become explicit
  outcome values fed to the embedded drivers, and the mutable
  `self.results` dictionaries become an explicit record threaded through
  the run loop.
-/

namespace NotebookVerify

/-- Model of a parsed JSON value, as produced by Python's json.load. -/
inductive Json where
  | null
  | bool (b : Bool)
  | num (n : Int)
  | str (s : String)
  | arr (elems : List Json)
  | obj (fields : List (String × Json))

/-- Result of opening and json.load-ing a notebook file.  `ok` carries the
top-level JSON object (the notebooks the scripts handle parse to dicts;
inputs whose parse raises json.JSONDecodeError are `decodeError`, any other
exception while reading is `readError`, matching the two except clauses of
test_notebook_structure). -/
inductive ParseOutcome where
  | ok (doc : List (String × Json))
  | decodeError (msg : String)
  | readError (msg : String)

/-- Python dict lookup on the parsed object (json.load keeps one value per
key, so the association list is keyed uniquely and first-match lookup is
dict lookup). -/
def lookupField : List (String × Json) → String → Option Json
  | [], _ => none
  | (k, v) :: rest, key => if k = key then some v else lookupField rest key

/-- Lookup of a key inside a JSON value that should be an object, as in
Python's `key in cell` / `cell[key]` on a dict. -/
def Json.getField? : Json → String → Option Json
  | .obj fields, key => lookupField fields key
  | _, _ => none

/-- Python's repr of a list of strings, e.g. `[\x27cells\x27]`, as rendered
by an f-string such as f"Missing required keys: \x7bmissing_keys\x7d". -/
def pyListRepr (xs : List String) : String :=
  "[" ++ String.intercalate ", " (xs.map (fun s => "\x27" ++ s ++ "\x27")) ++ "]"

/-- Python `cell[k] == "lit"`: equality holds only when the JSON value is
that string (a non-string value compares unequal, it does not raise). -/
def jsonIsStr (j : Json) (lit : String) : Bool :=
  match j with
  | .str s => s == lit
  | _ => false

/-- The legacy-format per-worksheet cell loop of test_notebook_structure
(lines 160-167 of test_notebooks.py): first missing requirement returns the
error message, `none` means every cell passed. -/
def checkLegacyCells (wsIdx : Nat) : Nat → List Json → Option String
  | _, [] => none
  | i, cell :: rest =>
    match cell.getField? "cell_type" with
    | none => some ("Worksheet " ++ toString wsIdx ++ ", Cell " ++ toString i ++ " missing cell_type")
    | some ct =>
      if jsonIsStr ct "code" && (cell.getField? "input").isNone then
        some ("Worksheet " ++ toString wsIdx ++ ", Code cell " ++ toString i ++ " missing input")
      else if jsonIsStr ct "markdown" && (cell.getField? "source").isNone then
        some ("Worksheet " ++ toString wsIdx ++ ", Markdown cell " ++ toString i ++ " missing source")
      else
        checkLegacyCells wsIdx (i + 1) rest

/-- The legacy-format worksheet loop of test_notebook_structure
(lines 153-167): each worksheet must carry a `cells` list whose cells pass
`checkLegacyCells`. -/
def checkWorksheets : Nat → List Json → Option String
  | _, [] => none
  | wsIdx, ws :: rest =>
    match ws.getField? "cells" with
    | none => some ("Worksheet " ++ toString wsIdx ++ " missing cells")
    | some cellsVal =>
      match cellsVal with
      | .arr cells =>
        match checkLegacyCells wsIdx 0 cells with
        | some err => some err
        | none => checkWorksheets (wsIdx + 1) rest
      | _ => some ("Worksheet " ++ toString wsIdx ++ " cells must be a list")

/-- The modern-format cell loop of test_notebook_structure
(lines 181-185): every cell must carry `cell_type` and `source`. -/
def checkModernCells : Nat → List Json → Option String
  | _, [] => none
  | i, cell :: rest =>
    if (cell.getField? "cell_type").isNone then
      some ("Cell " ++ toString i ++ " missing cell_type")
    else if (cell.getField? "source").isNone then
      some ("Cell " ++ toString i ++ " missing source")
    else
      checkModernCells (i + 1) rest

/-- notebook.get("nbformat", 0).  The scripts' documents carry an integer
here; a non-numeric value would make the Python comparison `<= 3` raise a
TypeError that the enclosing generic handler converts to an error outcome,
a corner no claim exercises, modelled as 0. -/
def nbformatVersion (doc : List (String × Json)) : Int :=
  match lookupField doc "nbformat" with
  | some (.num n) => n
  | _ => 0

/-- NotebookTester.test_notebook_structure (test_notebooks.py lines
117-192, first variant): structural validation of one notebook, returning
(success, error_message). -/
def test_notebook_structure (p : ParseOutcome) : Bool × String :=
  match p with
  | .decodeError m => (false, "Invalid JSON: " ++ m)
  | .readError m => (false, "Error reading file: " ++ m)
  | .ok doc =>
    let basicRequired := ["metadata", "nbformat"]
    let missingBasic := basicRequired.filter (fun k => (lookupField doc k).isNone)
    if missingBasic ≠ [] then
      (false, "Missing required basic keys: " ++ pyListRepr missingBasic)
    else if nbformatVersion doc ≤ 3 then
      match lookupField doc "worksheets" with
      | none => (false, "Old format notebook missing \x27worksheets\x27")
      | some wsVal =>
        match wsVal with
        | .arr worksheets =>
          if worksheets.isEmpty then (true, "")
          else
            match checkWorksheets 0 worksheets with
            | some err => (false, err)
            | none => (true, "")
        | _ => (false, "Worksheets must be a list")
    else
      let requiredKeys := ["cells", "metadata", "nbformat"]
      let missingKeys := requiredKeys.filter (fun k => (lookupField doc k).isNone)
      if missingKeys ≠ [] then
        (false, "Missing required keys: " ++ pyListRepr missingKeys)
      else
        match lookupField doc "cells" with
        | some (.arr cells) =>
          match checkModernCells 0 cells with
          | some err => (false, err)
          | none => (true, "")
        | _ => (false, "Cells must be a list")

/-- Outcome of one `subprocess.run` call of the first NotebookTester
variant.  Its `subprocess.run` carries no `timeout=` argument, so the only
possibilities are a completed process (with return code and captured
streams) or an exception raised while spawning or running it. -/
inductive Attempt1 where
  | completed (returncode : Int) (stdout stderr : String)
  | exn (msg : String)

/-- The primary nbconvert invocation built by the first variant's
execute_notebook (test_notebooks.py lines 62-70). -/
def nbconvertCmd (tempOutputPath notebookPath : String) : List String :=
  ["jupyter", "nbconvert",
   "--to", "notebook",
   "--execute",
   "--output", tempOutputPath,
   "--ExecutePreprocessor.timeout=300",
   "--ExecutePreprocessor.allow_errors=True",
   notebookPath]

/-- The fallback nbconvert invocation with the kernel override
(test_notebooks.py lines 83-92). -/
def nbconvertCmdKernel (tempOutputPath notebookPath : String) : List String :=
  ["jupyter", "nbconvert",
   "--to", "notebook",
   "--execute",
   "--output", tempOutputPath,
   "--ExecutePreprocessor.timeout=300",
   "--ExecutePreprocessor.allow_errors=True",
   "--ExecutePreprocessor.kernel_name=python3",
   notebookPath]

/-- The diagnostic built at test_notebooks.py line 105 when both attempts
exit nonzero. -/
def bothFailedMsg (c1 : Int) (o1 e1 : String) (c2 : Int) (o2 e2 : String) : String :=
  "Both attempts failed.\nFirst attempt (exit " ++ toString c1 ++ "):\nSTDOUT: " ++ o1 ++
  "\nSTDERR: " ++ e1 ++ "\n\nSecond attempt with kernel override (exit " ++ toString c2 ++
  "):\nSTDOUT: " ++ o2 ++ "\nSTDERR: " ++ e2

/-- NotebookTester.execute_notebook of the first variant (test_notebooks.py
lines 44-115), over the outcomes of the primary and fallback subprocess
invocations.  An exception anywhere inside the try block is caught by the
outer handler and reported as a failed outcome. -/
def execute_notebook (primary fallback : Attempt1) : Bool × String :=
  match primary with
  | .exn m => (false, "Exception during execution: " ++ m)
  | .completed c1 o1 e1 =>
    if c1 = 0 then (true, "")
    else
      match fallback with
      | .exn m => (false, "Exception during execution: " ++ m)
      | .completed c2 o2 e2 =>
        if c2 = 0 then (true, "Succeeded with kernel override")
        else (false, bothFailedMsg c1 o1 e1 c2 o2 e2)

/-- One notebook of the discovered corpus: its path (relative to the repo
root, as recorded in the result lists) and the parse outcome of its file
contents. -/
structure Notebook where
  path : String
  parse : ParseOutcome

/-- The first variant's `self.results` dictionary: passed/failed/skipped
path lists plus the errors dict (modelled as an insertion-ordered
association list, assignment to an existing key replacing its value in
place as a Python dict does). -/
structure Results1 where
  passed : List String
  failed : List String
  skipped : List String
  errors : List (String × String)
deriving DecidableEq

/-- The results dictionary as initialised in NotebookTester.__init__. -/
def initResults : Results1 :=
  { passed := [], failed := [], skipped := [], errors := [] }

/-- Python dict assignment d[k] = v on an insertion-ordered association
list: replace in place when the key exists, append otherwise. -/
def dictInsert (m : List (String × String)) (k v : String) : List (String × String) :=
  if m.any (fun p => p.1 == k) then
    m.map (fun p => if p.1 == k then (k, v) else p)
  else
    m ++ [(k, v)]

/-- Python `if max_failures and failure_count >= max_failures` of
test_notebooks.py lines 224 and 240: None and 0 are falsy, so the run
stops only for a nonzero threshold that the failure count has reached. -/
def shouldStop (maxFailures : Option Int) (failureCount : Nat) : Bool :=
  match maxFailures with
  | none => false
  | some m => m != 0 && (failureCount : Int) ≥ m

/-- The per-notebook loop of NotebookTester.run_tests (test_notebooks.py
lines 213-246).  Returns the final results together with the list of
notebooks for which execute_notebook was invoked (the subprocess trace,
in order). -/
def runTestsGo (executeNotebooks : Bool) (maxFailures : Option Int)
    (execOracle : Notebook → Bool × String) :
    List Notebook → Results1 → Nat → List Notebook → Results1 × List Notebook
  | [], results, _, trace => (results, trace)
  | nb :: rest, results, failureCount, trace =>
    let structureRes := test_notebook_structure nb.parse
    if !structureRes.1 then
      let results' := { results with
        failed := results.failed ++ [nb.path],
        errors := dictInsert results.errors nb.path ("Structure error: " ++ structureRes.2) }
      let failureCount' := failureCount + 1
      if shouldStop maxFailures failureCount' then (results', trace)
      else runTestsGo executeNotebooks maxFailures execOracle rest results' failureCount' trace
    else if executeNotebooks then
      let execRes := execOracle nb
      let trace' := trace ++ [nb]
      if execRes.1 then
        runTestsGo executeNotebooks maxFailures execOracle rest
          { results with passed := results.passed ++ [nb.path] } failureCount trace'
      else
        let results' := { results with
          failed := results.failed ++ [nb.path],
          errors := dictInsert results.errors nb.path execRes.2 }
        let failureCount' := failureCount + 1
        if shouldStop maxFailures failureCount' then (results', trace')
        else runTestsGo executeNotebooks maxFailures execOracle rest results' failureCount' trace'
    else
      runTestsGo executeNotebooks maxFailures execOracle rest
        { results with passed := results.passed ++ [nb.path] } failureCount trace

/-- NotebookTester.run_tests (first variant) over a discovered corpus,
with execute_notebook abstracted as an oracle from notebooks to
(success, error_message). -/
def run_tests (notebooks : List Notebook) (executeNotebooks : Bool)
    (maxFailures : Option Int) (execOracle : Notebook → Bool × String) :
    Results1 × List Notebook :=
  runTestsGo executeNotebooks maxFailures execOracle notebooks initResults 0 []

/-- The exit-code decision of the first variant's main (test_notebooks.py
lines 317-322): sys.exit(1) when results["failed"] is nonempty, else
sys.exit(0). -/
def mainExitCode (results : Results1) : Nat :=
  if results.failed.isEmpty then 0 else 1

/-- Outcome of one `subprocess.run` call carrying a `timeout=` argument
(the second NotebookTester variant and simple_test.py): the process
completes, the wall-clock timeout elapses (subprocess.TimeoutExpired), or
some other exception is raised. -/
inductive Attempt2 where
  | completed (returncode : Int) (stdout stderr : String)
  | timedOut
  | exn (msg : String)

/-- The nbconvert invocation of the second variant's execute_notebook
(test_notebooks.py lines 409-417). -/
def nbconvertCmdV2 (tempPath notebookPath : String) : List String :=
  ["jupyter", "nbconvert",
   "--to", "notebook",
   "--execute",
   "--ExecutePreprocessor.timeout=60",
   "--ExecutePreprocessor.allow_errors=False",
   "--output", tempPath,
   notebookPath]

/-- Python `result.stderr or result.stdout` (test_notebooks.py line 435):
the empty string is falsy. -/
def stderrOrStdout (stderr stdout : String) : String :=
  if stderr.isEmpty then stdout else stderr

/-- NotebookTester.execute_notebook of the second variant
(test_notebooks.py lines 401-441): a single subprocess invocation bounded
by self.timeout_seconds; a TimeoutExpired yields a failed outcome naming
the timeout, with no further invocation.  Returns the outcome together
with the list of subprocess command lines issued. -/
def execute_notebook_v2 (timeoutSeconds : Nat) (tempPath notebookPath : String)
    (attempt : Attempt2) : (Bool × String) × List (List String) :=
  let invocations := [nbconvertCmdV2 tempPath notebookPath]
  match attempt with
  | .completed c o e =>
    if c = 0 then ((true, ""), invocations)
    else ((false, stderrOrStdout e o), invocations)
  | .timedOut =>
    ((false, "Execution timed out after " ++ toString timeoutSeconds ++ " seconds"), invocations)
  | .exn m =>
    ((false, "Execution error: " ++ m), invocations)

/-- The second variant's results dictionary (no skipped list). -/
structure Results2 where
  passed : List String
  failed : List String
  errors : List (String × String)
deriving DecidableEq

/-- NotebookTester.validate_notebook_format (test_notebooks.py lines
373-384): json.load the file; on a parse or read error it RECORDS the
error into self.results["errors"] before returning False. -/
def validate_notebook_format (results : Results2) (notebookPath : String)
    (p : ParseOutcome) : Bool × Results2 :=
  match p with
  | .ok _ => (true, results)
  | .decodeError m =>
    (false, { results with
      errors := dictInsert results.errors notebookPath ("Invalid JSON format: " ++ m) })
  | .readError m =>
    (false, { results with
      errors := dictInsert results.errors notebookPath ("Error reading file: " ++ m) })

/-- The state-passing form of test_notebook_structure: the method reads
only the file, never touching self.results, so the embedding returns the
aggregator state unchanged next to the pure outcome. -/
def test_notebook_structure_st (results : Results1) (p : ParseOutcome) :
    Results1 × (Bool × String) :=
  (results, test_notebook_structure p)

/-- The hardcoded outer subprocess timeout of simple_test.py line 53. -/
def simpleTestTimeout : Nat := 600

/-- The nbconvert invocation of simple_test.py lines 43-51. -/
def nbconvertCmdSimple (notebookPath : String) : List String :=
  ["jupyter", "nbconvert",
   "--to", "notebook",
   "--execute",
   "--ExecutePreprocessor.timeout=120",
   "--ExecutePreprocessor.allow_errors=False",
   "--stdout",
   notebookPath]

/-- simple_test.py's test_notebook (lines 26-68): returns whether the
notebook passed together with the console text printed after the
"Testing name... " prefix (the only diagnostic this script produces). -/
def simple_test_notebook (p : ParseOutcome) (attempt : Attempt2) : Bool × String :=
  match p with
  | .decodeError m => (false, "❌ Invalid JSON: " ++ m)
  | .readError m => (false, "❌ Error reading: " ++ m)
  | .ok _ =>
    match attempt with
    | .completed c _ e =>
      if c = 0 then (true, "✅ PASSED")
      else (false, "❌ FAILED\nError: " ++ e)
    | .timedOut => (false, "❌ TIMEOUT")
    | .exn m => (false, "❌ ERROR: " ++ m)

/-- One notebook as seen by simple_test.py: parse outcome plus the
behaviour of its nbconvert subprocess. -/
structure SimpleCase where
  parse : ParseOutcome
  attempt : Attempt2

/-- simple_test.py's main (lines 71-99): an empty corpus returns without
calling sys.exit (the process ends with code 0); otherwise the script
exits 1 exactly when the failure count is positive. -/
def simpleMainExit (cases : List SimpleCase) : Nat :=
  if cases.isEmpty then 0
  else
    let failedCount := (cases.filter (fun c => !(simple_test_notebook c.parse c.attempt).1)).length
    if failedCount > 0 then 1 else 0

/-- Whether the character list `t` is an initial segment of `s`. -/
def seqStartsWith : List Char → List Char → Bool
  | _, [] => true
  | [], _ :: _ => false
  | a :: as, b :: bs => a == b && seqStartsWith as bs

/-- Whether the character list `t` occurs contiguously inside `s`. -/
def seqHasSub : List Char → List Char → Bool
  | [], t => seqStartsWith [] t
  | a :: as, t => seqStartsWith (a :: as) t || seqHasSub as t

/-- Whether the string `t` occurs as a contiguous substring of `s`. -/
def strHasSub (s t : String) : Bool :=
  seqHasSub s.data t.data

/-- A modern-format document missing its cells field. -/
def docV4NoCells : List (String × Json) :=
  [("metadata", .obj []), ("nbformat", .num 4)]

/-- A legacy-format document with an empty worksheets list. -/
def docV3EmptyWorksheets : List (String × Json) :=
  [("metadata", .obj []), ("nbformat", .num 3), ("worksheets", .arr [])]

/-- A legacy-format document whose single cell carries only a type tag
`t` and neither an input nor a source field. -/
def legacyOtherCellDoc (t : String) : List (String × Json) :=
  [("metadata", .obj []), ("nbformat", .num 3),
   ("worksheets", .arr [.obj [("cells", .arr [.obj [("cell_type", .str t)]])]])]

/-- A structurally valid modern-format document with no cells. -/
def modernEmptyDoc : List (String × Json) :=
  [("metadata", .obj []), ("nbformat", .num 4), ("cells", .arr [])]

/-- Three notebooks that all fail structural validation (their documents
lack both metadata and nbformat). -/
def threeBadCorpus : List Notebook :=
  [⟨"a.ipynb", .ok []⟩, ⟨"b.ipynb", .ok []⟩, ⟨"c.ipynb", .ok []⟩]

theorem dictInsert_mem_self (m : List (String × String)) (k v : String) :
    (k, v) ∈ dictInsert m k v := by
  unfold dictInsert
  split
  · next h =>
    obtain ⟨p, hp, hpk⟩ := List.any_eq_true.mp h
    exact List.mem_map.mpr ⟨p, hp, by simp [hpk]⟩
  · exact List.mem_append_right _ (List.mem_singleton.mpr rfl)

theorem dictInsert_mem_of_ne {m : List (String × String)} {k v : String} (k2 v2 : String)
    (h : (k, v) ∈ m) (hne : k ≠ k2) : (k, v) ∈ dictInsert m k2 v2 := by
  unfold dictInsert
  split
  · exact List.mem_map.mpr ⟨(k, v), h, by simp [hne]⟩
  · exact List.mem_append_left _ h

theorem runTestsGo_skipped_const (e : Bool) (m : Option Int) (o : Notebook → Bool × String)
    (rest : List Notebook) (results : Results1) (fc : Nat) (tr : List Notebook) :
    (runTestsGo e m o rest results fc tr).1.skipped = results.skipped := by
  induction rest generalizing results fc tr with
  | nil => rfl
  | cons nb rest ih =>
    simp only [runTestsGo]
    repeat' split
    all_goals simp [ih]

theorem runTestsGo_failed_mono (e : Bool) (m : Option Int) (o : Notebook → Bool × String)
    (rest : List Notebook) (results : Results1) (fc : Nat) (tr : List Notebook) {x : String}
    (h : x ∈ results.failed) : x ∈ (runTestsGo e m o rest results fc tr).1.failed := by
  induction rest generalizing results fc tr with
  | nil => simpa [runTestsGo] using h
  | cons nb rest ih =>
    simp only [runTestsGo]
    repeat' split
    all_goals first
      | exact List.mem_append_left _ h
      | exact ih _ _ _ (List.mem_append_left _ h)
      | exact ih _ _ _ h

theorem runTestsGo_errors_mono (e : Bool) (m : Option Int) (o : Notebook → Bool × String)
    (rest : List Notebook) (results : Results1) (fc : Nat) (tr : List Notebook)
    {k v : String} (h : (k, v) ∈ results.errors) (hk : k ∉ rest.map Notebook.path) :
    (k, v) ∈ (runTestsGo e m o rest results fc tr).1.errors := by
  induction rest generalizing results fc tr with
  | nil => simpa [runTestsGo] using h
  | cons nb rest ih =>
    have hne : k ≠ nb.path := by
      intro hkeq
      exact hk (by simp [hkeq])
    have hk' : k ∉ rest.map Notebook.path := by
      intro hmem
      exact hk (by simp [hmem])
    simp only [runTestsGo]
    repeat' split
    all_goals first
      | exact dictInsert_mem_of_ne _ _ h hne
      | exact ih _ _ _ (dictInsert_mem_of_ne _ _ h hne) hk'
      | exact ih _ _ _ h hk'

theorem runTestsGo_trace_struct_ok (e : Bool) (m : Option Int) (o : Notebook → Bool × String)
    (rest : List Notebook) (results : Results1) (fc : Nat) (tr : List Notebook) {nb : Notebook}
    (h : nb ∈ (runTestsGo e m o rest results fc tr).2) :
    nb ∈ tr ∨ (test_notebook_structure nb.parse).1 = true := by
  induction rest generalizing results fc tr with
  | nil => exact Or.inl (by simpa [runTestsGo] using h)
  | cons hd rest ih =>
    by_cases hs : (test_notebook_structure hd.parse).1 = false
    · simp only [runTestsGo, hs, Bool.not_false, if_true] at h
      split at h
      · exact Or.inl h
      · exact ih _ _ _ h
    · have hs' : (test_notebook_structure hd.parse).1 = true := by
        cases hb : (test_notebook_structure hd.parse).1
        · exact absurd hb hs
        · rfl
      have hmem : ∀ {tr' : List Notebook}, nb ∈ tr' ++ [hd] →
          nb ∈ tr' ∨ (test_notebook_structure nb.parse).1 = true := by
        intro tr' htr
        rcases List.mem_append.mp htr with htr' | hone
        · exact Or.inl htr'
        · exact Or.inr ((List.mem_singleton.mp hone) ▸ hs')
      by_cases he : e = true
      · subst he
        simp only [runTestsGo, hs', Bool.not_true, Bool.false_eq_true, if_false, if_true] at h
        split at h
        · rcases ih _ _ _ h with htr | hok
          · exact hmem htr
          · exact Or.inr hok
        · split at h
          · exact hmem h
          · rcases ih _ _ _ h with htr | hok
            · exact hmem htr
            · exact Or.inr hok
      · have he' : e = false := by
          cases e
          · rfl
          · exact absurd rfl he
        subst he'
        simp only [runTestsGo, hs', Bool.not_true, Bool.false_eq_true, if_false] at h
        exact ih _ _ _ h

theorem runTestsGo_none_records (e : Bool) (o : Notebook → Bool × String) :
    ∀ (rest : List Notebook) (results : Results1) (fc : Nat) (tr : List Notebook)
      (nb : Notebook) (err : String),
      nb ∈ rest → test_notebook_structure nb.parse = (false, err) →
      (rest.map Notebook.path).Nodup →
      nb.path ∈ (runTestsGo e none o rest results fc tr).1.failed ∧
      (nb.path, "Structure error: " ++ err) ∈ (runTestsGo e none o rest results fc tr).1.errors := by
  intro rest
  induction rest with
  | nil => intro _ _ _ _ _ hmem _ _; exact absurd hmem (List.not_mem_nil _)
  | cons hd rest ih =>
    intro results fc tr nb err hmem hstruct hnodup
    have hnodup' : (rest.map Notebook.path).Nodup :=
      (List.nodup_cons.mp (by simpa using hnodup)).2
    rcases List.mem_cons.mp hmem with heq | htail
    · subst heq
      have hkey : nb.path ∉ rest.map Notebook.path :=
        (List.nodup_cons.mp (by simpa using hnodup)).1
      simp only [runTestsGo, hstruct, Bool.not_false, if_true, shouldStop, Bool.false_eq_true,
        if_false]
      constructor
      · exact runTestsGo_failed_mono _ _ _ _ _ _ _
          (List.mem_append_right _ (List.mem_singleton.mpr rfl))
      · exact runTestsGo_errors_mono _ _ _ _ _ _ _ (dictInsert_mem_self _ _ _) hkey
    · by_cases hs : (test_notebook_structure hd.parse).1 = false
      · simp only [runTestsGo, hs, Bool.not_false, if_true, shouldStop, Bool.false_eq_true,
          if_false]
        exact ih _ _ _ _ _ htail hstruct hnodup'
      · have hs' : (test_notebook_structure hd.parse).1 = true := by
          cases hb : (test_notebook_structure hd.parse).1
          · exact absurd hb hs
          · rfl
        by_cases he : e = true
        · subst he
          simp only [runTestsGo, hs', Bool.not_true, Bool.false_eq_true, if_false, if_true,
            shouldStop]
          split
          · exact ih _ _ _ _ _ htail hstruct hnodup'
          · exact ih _ _ _ _ _ htail hstruct hnodup'
        · have he' : e = false := by
            cases e
            · rfl
            · exact absurd rfl he
          subst he'
          simp only [runTestsGo, hs', Bool.not_true, Bool.false_eq_true, if_false]
          exact ih _ _ _ _ _ htail hstruct hnodup'

/-- C1: a notebook of the corpus whose structural validation returns invalid is
never handed to the execution driver (it never appears in the subprocess
trace, for any configuration), and in the default no-threshold configuration
it is recorded as Failed with a structural reason in the errors mapping. -/
theorem struct_invalid_short_circuits
    (notebooks : List Notebook) (executeNotebooks : Bool) (maxFailures : Option Int)
    (execOracle : Notebook → Bool × String) (nb : Notebook) (err : String)
    (hmem : nb ∈ notebooks)
    (hstruct : test_notebook_structure nb.parse = (false, err))
    (hnodup : (notebooks.map Notebook.path).Nodup) :
    nb ∉ (run_tests notebooks executeNotebooks maxFailures execOracle).2 ∧
    (maxFailures = none →
      nb.path ∈ (run_tests notebooks executeNotebooks maxFailures execOracle).1.failed ∧
      (nb.path, "Structure error: " ++ err) ∈
        (run_tests notebooks executeNotebooks maxFailures execOracle).1.errors) := by
  constructor
  · intro hin
    rcases runTestsGo_trace_struct_ok executeNotebooks maxFailures execOracle notebooks
      initResults 0 [] hin with htr | hok
    · exact List.not_mem_nil _ htr
    · rw [hstruct] at hok
      exact Bool.false_ne_true hok
  · intro hnone
    subst hnone
    exact runTestsGo_none_records executeNotebooks execOracle notebooks initResults 0 [] nb err
      hmem hstruct hnodup

theorem seqStartsWith_self_append (t b : List Char) : seqStartsWith (t ++ b) t = true := by
  induction t with
  | nil => cases b <;> rfl
  | cons a as ih => simp [seqStartsWith, ih]

theorem seqHasSub_of_startsWith {s t : List Char} (h : seqStartsWith s t = true) :
    seqHasSub s t = true := by
  cases s with
  | nil => exact h
  | cons a as => simp [seqHasSub, h]

theorem seqHasSub_append (a t b : List Char) : seqHasSub (a ++ t ++ b) t = true := by
  induction a with
  | nil => exact seqHasSub_of_startsWith (seqStartsWith_self_append t b)
  | cons c cs ih =>
    simp only [seqHasSub, Bool.or_eq_true]
    exact Or.inr (by simpa using ih)

theorem strHasSub_append (x t y : String) : strHasSub (x ++ t ++ y) t = true := by
  have h : (x ++ t ++ y).data = x.data ++ t.data ++ y.data := by
    simp [String.data_append]
  simp only [strHasSub, h]
  simpa [List.append_assoc] using seqHasSub_append x.data t.data y.data

theorem strHasSub_of_eq_append (x t y : String) {s : String} (h : s = x ++ t ++ y) :
    strHasSub s t = true := by
  rw [h]
  exact strHasSub_append x t y

theorem simpleMainExit_iff (cases : List SimpleCase) :
    simpleMainExit cases ≠ 0 ↔ ∃ c ∈ cases, (simple_test_notebook c.parse c.attempt).1 = false := by
  by_cases hc : cases.isEmpty
  · have : cases = [] := List.isEmpty_iff.mp hc
    subst this
    simp [simpleMainExit]
  · simp only [simpleMainExit, hc, if_false]
    by_cases hf : 0 < (cases.filter (fun c => !(simple_test_notebook c.parse c.attempt).1)).length
    · simp only [hf, if_pos]
      constructor
      · intro _
        have hne : (cases.filter (fun c => !(simple_test_notebook c.parse c.attempt).1)) ≠ [] := by
          intro hnil
          rw [hnil] at hf
          exact Nat.lt_irrefl 0 hf
        obtain ⟨c, hcmem⟩ := List.exists_mem_of_ne_nil _ hne
        have := List.mem_filter.mp hcmem
        exact ⟨c, this.1, by simpa using this.2⟩
      · intro _
        exact one_ne_zero
    · simp only [hf, if_neg]
      constructor
      · intro h
        exact absurd rfl h
      · rintro ⟨c, hcmem, hcf⟩
        exfalso
        apply hf
        apply List.length_pos.mpr
        intro hnil
        have : c ∈ cases.filter (fun c => !(simple_test_notebook c.parse c.attempt).1) :=
          List.mem_filter.mpr ⟨hcmem, by simp [hcf]⟩
        rw [hnil] at this
        exact List.not_mem_nil _ this

/-- C2: the run exits nonzero exactly when some recorded outcome is Failed;
the exit code is a function of the failed list alone (so skipped entries
cannot affect it), an empty corpus exits 0, and simple_test.py's exit code is
nonzero exactly when some notebook failed. -/
theorem exit_signal_iff_failed :
    (∀ (nbs : List Notebook) (e : Bool) (m : Option Int) (o : Notebook → Bool × String),
      mainExitCode (run_tests nbs e m o).1 ≠ 0 ↔ (run_tests nbs e m o).1.failed ≠ []) ∧
    (∀ r1 r2 : Results1, r1.failed = r2.failed → mainExitCode r1 = mainExitCode r2) ∧
    (∀ (e : Bool) (m : Option Int) (o : Notebook → Bool × String),
      mainExitCode (run_tests [] e m o).1 = 0) ∧
    (∀ cases : List SimpleCase,
      simpleMainExit cases ≠ 0 ↔ ∃ c ∈ cases, (simple_test_notebook c.parse c.attempt).1 = false) := by
  refine ⟨?_, ?_, ?_, simpleMainExit_iff⟩
  · intro nbs e m o
    unfold mainExitCode
    by_cases hf : (run_tests nbs e m o).1.failed.isEmpty
    · simp [hf, List.isEmpty_iff.mp hf]
    · simp only [hf, if_neg, if_false]
      constructor
      · intro _
        exact fun hnil => hf (List.isEmpty_iff.mpr hnil)
      · intro _
        exact one_ne_zero
  · intro r1 r2 h
    unfold mainExitCode
    rw [h]
  · intro e m o
    rfl

/-- C7: a format-version-4 document without a cells field is reported invalid
with a reason mentioning the missing field, and a format-version-3 document
with an empty worksheets list is reported valid. -/
theorem validator_v4_missing_cells_v3_empty_ws :
    test_notebook_structure (.ok docV4NoCells) =
      (false, "Missing required keys: [\x27cells\x27]") ∧
    strHasSub (test_notebook_structure (.ok docV4NoCells)).2 "cells" = true ∧
    test_notebook_structure (.ok docV3EmptyWorksheets) = (true, "") := by
  refine ⟨by decide, by decide, by decide⟩

/-- C10: in the legacy-format branch, a cell whose type tag is neither code
nor markdown passes structural validation with only the type tag present,
with no input and no source field. -/
theorem legacy_other_cell_type_passes (t : String) (h1 : t ≠ "code") (h2 : t ≠ "markdown") :
    test_notebook_structure (.ok (legacyOtherCellDoc t)) = (true, "") := by
  have hb1 : (t == "code") = false := beq_eq_false_iff_ne.mpr h1
  have hb2 : (t == "markdown") = false := beq_eq_false_iff_ne.mpr h2
  simp [test_notebook_structure, legacyOtherCellDoc, checkWorksheets, checkLegacyCells,
    lookupField, Json.getField?, jsonIsStr, nbformatVersion, pyListRepr, hb1, hb2]

theorem legacy_other_cell_type_passes_witness :
    ("heading" ≠ "code") ∧ ("heading" ≠ "markdown") ∧
    test_notebook_structure (.ok (legacyOtherCellDoc "heading")) = (true, "") :=
  ⟨by decide, by decide, legacy_other_cell_type_passes "heading" (by decide) (by decide)⟩

/-- C8 (amended): the first variant's primary and fallback invocations set the
error-tolerance flag to continue past errors (allow_errors=True), while the
second variant's and simple_test.py's invocations set it to fail-fast
(allow_errors=False). -/
theorem allow_errors_flag_by_driver (tempPath notebookPath : String) :
    "--ExecutePreprocessor.allow_errors=True" ∈ nbconvertCmd tempPath notebookPath ∧
    "--ExecutePreprocessor.allow_errors=True" ∈ nbconvertCmdKernel tempPath notebookPath ∧
    "--ExecutePreprocessor.allow_errors=False" ∈ nbconvertCmdV2 tempPath notebookPath ∧
    "--ExecutePreprocessor.allow_errors=False" ∈ nbconvertCmdSimple notebookPath := by
  refine ⟨?_, ?_, ?_, ?_⟩ <;>
    simp [nbconvertCmd, nbconvertCmdKernel, nbconvertCmdV2, nbconvertCmdSimple]

/-- C8 counterexample: the primary invocation built by the first variant's
execute_notebook passes --ExecutePreprocessor.allow_errors=True (continue
past cell errors) and not allow_errors=False, so the primary attempt is not
fail-fast. -/
theorem primary_attempt_allows_errors :
    "--ExecutePreprocessor.allow_errors=False" ∉ nbconvertCmd "tmp.ipynb" "nb.ipynb" ∧
    "--ExecutePreprocessor.allow_errors=True" ∈ nbconvertCmd "tmp.ipynb" "nb.ipynb" := by
  decide

/-- C3 counterexample: a notebook whose primary attempt exits 1 and whose
fallback succeeds is recorded as Passed, but the aggregator's record carries
no diagnostic at all (the errors mapping stays empty), so the recorded
outcome does not note that the fallback was used. -/
theorem fallback_success_diag_not_recorded :
    execute_notebook (.completed 1 "out1" "err1") (.completed 0 "" "") =
      (true, "Succeeded with kernel override") ∧
    (run_tests [⟨"nb.ipynb", .ok modernEmptyDoc⟩] true none
        (fun _ => execute_notebook (.completed 1 "out1" "err1") (.completed 0 "" ""))).1 =
      { passed := ["nb.ipynb"], failed := [], skipped := [], errors := [] } := by
  refine ⟨by decide, by decide⟩

/-- C3 (amended): when the primary attempt fails non-timeout and the fallback
succeeds, the execution driver returns Passed with the diagnostic
"Succeeded with kernel override", and run_tests records the notebook as
Passed while dropping that diagnostic (no errors entry is written). -/
theorem fallback_success_passed_diag_dropped
    (c : Int) (o e o2 e2 : String) (hc : c ≠ 0)
    (nb : Notebook) (oracle : Notebook → Bool × String) (d : String)
    (hstruct : (test_notebook_structure nb.parse).1 = true)
    (horacle : oracle nb = (true, d)) :
    execute_notebook (.completed c o e) (.completed 0 o2 e2) =
      (true, "Succeeded with kernel override") ∧
    run_tests [nb] true none oracle =
      ({ passed := [nb.path], failed := [], skipped := [], errors := [] }, [nb]) := by
  constructor
  · simp [execute_notebook, hc]
  · simp [run_tests, runTestsGo, hstruct, horacle, initResults]

theorem fallback_success_passed_diag_dropped_witness :
    (1 : Int) ≠ 0 ∧
    (test_notebook_structure (Notebook.parse ⟨"nb.ipynb", .ok modernEmptyDoc⟩)).1 = true ∧
    execute_notebook (.completed 1 "o" "e") (.completed 0 "o2" "e2") =
      (true, "Succeeded with kernel override") ∧
    run_tests [⟨"nb.ipynb", .ok modernEmptyDoc⟩] true none
        (fun _ => (true, "Succeeded with kernel override")) =
      ({ passed := ["nb.ipynb"], failed := [], skipped := [], errors := [] },
       [⟨"nb.ipynb", .ok modernEmptyDoc⟩]) := by
  have h := fallback_success_passed_diag_dropped 1 "o" "e" "o2" "e2" (by decide)
    ⟨"nb.ipynb", .ok modernEmptyDoc⟩ (fun _ => (true, "Succeeded with kernel override"))
    "Succeeded with kernel override" (by decide) rfl
  exact ⟨by decide, by decide, h.1, h.2⟩

/-- C4 counterexample: in simple_test.py a notebook whose execution exceeds
the configured 600-second wall-clock timeout fails with console diagnostic
"❌ TIMEOUT", which does not contain the configured timeout value. -/
theorem simple_timeout_diag_lacks_value :
    simple_test_notebook (.ok []) .timedOut = (false, "❌ TIMEOUT") ∧
    strHasSub (simple_test_notebook (.ok []) .timedOut).2 (toString simpleTestTimeout) = false := by
  refine ⟨by decide, by decide⟩

/-- C4 (amended): in the driver with a wall-clock timeout (second variant), a
timeout yields a Failed outcome from a single subprocess invocation (no
fallback) whose diagnostic contains the configured timeout value;
simple_test.py also fails without a fallback on timeout, but its diagnostic
is the fixed text "❌ TIMEOUT" without the value. -/
theorem timeout_failed_single_attempt_diag (timeoutSeconds : Nat) (tempPath notebookPath : String) :
    execute_notebook_v2 timeoutSeconds tempPath notebookPath .timedOut =
      ((false, "Execution timed out after " ++ toString timeoutSeconds ++ " seconds"),
       [nbconvertCmdV2 tempPath notebookPath]) ∧
    strHasSub (execute_notebook_v2 timeoutSeconds tempPath notebookPath .timedOut).1.2
      (toString timeoutSeconds) = true ∧
    simple_test_notebook (.ok []) .timedOut = (false, "❌ TIMEOUT") := by
  refine ⟨rfl, ?_, rfl⟩
  exact strHasSub_of_eq_append "Execution timed out after " (toString timeoutSeconds) " seconds" rfl

/-- C5: when both the primary and the fallback attempt exit nonzero, the
outcome is Failed and its diagnostic is the labelled concatenation of both
attempts' captured stdout and stderr streams: it contains each of the four
streams and both attempt labels, so neither attempt's diagnostic is dropped. -/
theorem both_attempts_failed_diag_concat
    (c1 : Int) (o1 e1 : String) (c2 : Int) (o2 e2 : String)
    (h1 : c1 ≠ 0) (h2 : c2 ≠ 0) :
    execute_notebook (.completed c1 o1 e1) (.completed c2 o2 e2) =
      (false, bothFailedMsg c1 o1 e1 c2 o2 e2) ∧
    strHasSub (bothFailedMsg c1 o1 e1 c2 o2 e2) o1 = true ∧
    strHasSub (bothFailedMsg c1 o1 e1 c2 o2 e2) e1 = true ∧
    strHasSub (bothFailedMsg c1 o1 e1 c2 o2 e2) o2 = true ∧
    strHasSub (bothFailedMsg c1 o1 e1 c2 o2 e2) e2 = true ∧
    strHasSub (bothFailedMsg c1 o1 e1 c2 o2 e2) "First attempt (exit " = true ∧
    strHasSub (bothFailedMsg c1 o1 e1 c2 o2 e2) "Second attempt with kernel override (exit " = true := by
  refine ⟨by simp [execute_notebook, h1, h2], ?_, ?_, ?_, ?_, ?_, ?_⟩
  · exact strHasSub_of_eq_append ("Both attempts failed.\nFirst attempt (exit " ++ toString c1 ++ "):\nSTDOUT: ") o1 ("\nSTDERR: " ++ e1 ++ "\n\nSecond attempt with kernel override (exit " ++ toString c2 ++ "):\nSTDOUT: " ++ o2 ++ "\nSTDERR: " ++ e2)
      (by simp [bothFailedMsg, String.append_assoc])
  · exact strHasSub_of_eq_append ("Both attempts failed.\nFirst attempt (exit " ++ toString c1 ++ "):\nSTDOUT: " ++ o1 ++ "\nSTDERR: ") e1 ("\n\nSecond attempt with kernel override (exit " ++ toString c2 ++ "):\nSTDOUT: " ++ o2 ++ "\nSTDERR: " ++ e2)
      (by simp [bothFailedMsg, String.append_assoc])
  · exact strHasSub_of_eq_append ("Both attempts failed.\nFirst attempt (exit " ++ toString c1 ++ "):\nSTDOUT: " ++ o1 ++ "\nSTDERR: " ++ e1 ++ "\n\nSecond attempt with kernel override (exit " ++ toString c2 ++ "):\nSTDOUT: ") o2 ("\nSTDERR: " ++ e2)
      (by simp [bothFailedMsg, String.append_assoc])
  · exact strHasSub_of_eq_append ("Both attempts failed.\nFirst attempt (exit " ++ toString c1 ++ "):\nSTDOUT: " ++ o1 ++ "\nSTDERR: " ++ e1 ++ "\n\nSecond attempt with kernel override (exit " ++ toString c2 ++ "):\nSTDOUT: " ++ o2 ++ "\nSTDERR: ") e2 ("")
      (by simp [bothFailedMsg, String.append_assoc])
  · exact strHasSub_of_eq_append ("Both attempts failed.\n") "First attempt (exit " (toString c1 ++ "):\nSTDOUT: " ++ o1 ++ "\nSTDERR: " ++ e1 ++ "\n\nSecond attempt with kernel override (exit " ++ toString c2 ++ "):\nSTDOUT: " ++ o2 ++ "\nSTDERR: " ++ e2)
      (by simp [bothFailedMsg, String.append_assoc])
  · exact strHasSub_of_eq_append ("Both attempts failed.\nFirst attempt (exit " ++ toString c1 ++ "):\nSTDOUT: " ++ o1 ++ "\nSTDERR: " ++ e1 ++ "\n\n") "Second attempt with kernel override (exit " (toString c2 ++ "):\nSTDOUT: " ++ o2 ++ "\nSTDERR: " ++ e2)
      (by simp [bothFailedMsg, String.append_assoc])

/-- C6 counterexample: with max-failures threshold 1 and three notebooks that
all fail structural validation, the run stops after the FIRST failure, only
that notebook is recorded (1 failed), and the remaining notebooks are
recorded nowhere: the skipped list stays empty, contradicting the claimed
2 failed + 1 skipped summary. -/
theorem max_failures_stops_without_skip_recording :
    (run_tests threeBadCorpus true (some 1) (fun _ => (true, ""))).1.failed = ["a.ipynb"] ∧
    (run_tests threeBadCorpus true (some 1) (fun _ => (true, ""))).1.skipped = [] ∧
    "b.ipynb" ∉ (run_tests threeBadCorpus true (some 1) (fun _ => (true, ""))).1.failed ∧
    "c.ipynb" ∉ (run_tests threeBadCorpus true (some 1) (fun _ => (true, ""))).1.failed ∧
    "c.ipynb" ∉ (run_tests threeBadCorpus true (some 1) (fun _ => (true, ""))).1.passed ∧
    "c.ipynb" ∉ (run_tests threeBadCorpus true (some 1) (fun _ => (true, ""))).1.skipped := by
  decide

/-- C6 (amended): when a nonzero max-failures threshold is configured the run
terminates as soon as the failure count reaches it (threshold 1 stops right
after the first failure, whatever notebooks remain), remaining notebooks are
left unrecorded - the skipped list is empty on every run - and the summary
reflects only the notebooks processed before the stop. -/
theorem max_failures_early_stop_no_skip :
    (∀ (nbs : List Notebook) (e : Bool) (m : Option Int) (o : Notebook → Bool × String),
      (run_tests nbs e m o).1.skipped = []) ∧
    (∀ (rest : List Notebook) (o : Notebook → Bool × String),
      run_tests (⟨"a.ipynb", .ok []⟩ :: rest) true (some 1) o =
        ({ passed := [], failed := ["a.ipynb"], skipped := [],
           errors := [("a.ipynb",
             "Structure error: Missing required basic keys: [\x27metadata\x27, \x27nbformat\x27]")] },
         [])) ∧
    (run_tests threeBadCorpus true (some 1) (fun _ => (true, ""))).1.failed.length = 1 := by
  refine ⟨?_, ?_, by decide⟩
  · intro nbs e m o
    exact runTestsGo_skipped_const e m o nbs initResults 0 []
  · intro rest o
    rfl

/-- C9 counterexample: validating a byte sequence that fails to parse through
validate_notebook_format records a parse-error entry into the aggregator's
errors mapping, so structural validation is not free of effects on the
aggregator state for every input. -/
theorem validate_format_mutates_errors :
    ((⟨[], [], []⟩ : Results2).errors = []) ∧
    (validate_notebook_format ⟨[], [], []⟩ "nb.ipynb" (.decodeError "Expecting value")).2.errors =
      [("nb.ipynb", "Invalid JSON format: Expecting value")] ∧
    (validate_notebook_format ⟨[], [], []⟩ "nb.ipynb" (.decodeError "Expecting value")).1 = false := by
  refine ⟨rfl, by decide, rfl⟩

/-- C9 (amended): test_notebook_structure leaves the aggregator state
unchanged for every input, and validate_notebook_format leaves it unchanged
whenever the input parses; only parse and read failures in the latter write
an error record. -/
theorem validators_state_effects :
    (∀ (results : Results1) (p : ParseOutcome),
      (test_notebook_structure_st results p).1 = results) ∧
    (∀ (results : Results2) (path : String) (doc : List (String × Json)),
      (validate_notebook_format results path (.ok doc)).2 = results) :=
  ⟨fun _ _ => rfl, fun _ _ _ => rfl⟩

/-- C1 witness: the theorem instantiated on a one-notebook corpus whose
document lacks both basic keys. -/
theorem struct_invalid_short_circuits_witness :
    (⟨"bad.ipynb", .ok []⟩ : Notebook) ∈ ([⟨"bad.ipynb", .ok []⟩] : List Notebook) ∧
    test_notebook_structure (ParseOutcome.ok []) =
      (false, "Missing required basic keys: [\x27metadata\x27, \x27nbformat\x27]") ∧
    (⟨"bad.ipynb", .ok []⟩ : Notebook) ∉
      (run_tests [⟨"bad.ipynb", .ok []⟩] true none (fun _ => (true, ""))).2 ∧
    "bad.ipynb" ∈ (run_tests [⟨"bad.ipynb", .ok []⟩] true none (fun _ => (true, ""))).1.failed ∧
    ("bad.ipynb",
      "Structure error: Missing required basic keys: [\x27metadata\x27, \x27nbformat\x27]") ∈
      (run_tests [⟨"bad.ipynb", .ok []⟩] true none (fun _ => (true, ""))).1.errors := by
  have h := struct_invalid_short_circuits [⟨"bad.ipynb", .ok []⟩] true none (fun _ => (true, ""))
    ⟨"bad.ipynb", .ok []⟩ "Missing required basic keys: [\x27metadata\x27, \x27nbformat\x27]"
    (List.mem_singleton.mpr rfl) (by decide) (by simp)
  exact ⟨List.mem_singleton.mpr rfl, by decide, h.1, (h.2 rfl).1, (h.2 rfl).2⟩

/-- C5 witness: the theorem instantiated on two concrete failing attempts. -/
theorem both_attempts_failed_diag_concat_witness :
    (1 : Int) ≠ 0 ∧ (2 : Int) ≠ 0 ∧
    execute_notebook (.completed 1 "oa" "ea") (.completed 2 "ob" "eb") =
      (false, bothFailedMsg 1 "oa" "ea" 2 "ob" "eb") ∧
    strHasSub (bothFailedMsg 1 "oa" "ea" 2 "ob" "eb") "oa" = true ∧
    strHasSub (bothFailedMsg 1 "oa" "ea" 2 "ob" "eb") "eb" = true := by
  have h := both_attempts_failed_diag_concat 1 "oa" "ea" 2 "ob" "eb" (by decide) (by decide)
  exact ⟨by decide, by decide, h.1, h.2.1, h.2.2.2.2.1⟩

end NotebookVerify
